import Mathlib

/-!
Shallow embedding of the orchestration core of the xiaozhi-VLPro client
(src/application.py).  Each Python method that the specification's claims
refer to is translated into a pure Lean function from an explicit
application state to a new state together with a trace of observable
actions (hardware calls, display updates, protocol sends, log lines).
Blocking calls into the audio codec (which lives outside the embedded
file) are modelled from the spec where noted.
-/

namespace Xiaozhi

/-- Device states, from src/constants/constants.py (DeviceState). -/
inductive DeviceState where
  | idle
  | connecting
  | listening
  | speaking
  deriving DecidableEq, Repr

/-- Abort reasons, from src/constants/constants.py (AbortReason). -/
inductive AbortReason where
  | none
  | wakeWordDetected
  deriving DecidableEq, Repr

/-- Listening modes, from src/constants/constants.py (ListeningMode). -/
inductive ListeningMode where
  | manual
  | autoStop
  deriving DecidableEq, Repr

/-- Observable effects emitted by the application code: display updates,
audio-stream control, wake-word-gate control, protocol sends, logging,
thread spawns and task scheduling. -/
inductive Action where
  | updateStatus (text : String)
  | updateEmotion (emo : String)
  | stopOutputStream
  | startOutputStream
  | closeOutputStream
  | stopInputStream
  | startInputStream
  | pauseWake
  | resumeWake
  | startWake
  | waitForAudioComplete
  | clearAudioQueue
  | logStateChange (old new : DeviceState)
  | notifyListener (st : DeviceState)
  | listenerError
  | sendAbortSpeaking (r : AbortReason)
  | sendStartListening (m : ListeningMode)
  | sendStopListening
  | sendAudio
  | readAudio
  | playAudio
  | closeAudioChannel
  | connectAttempt (i : Nat)
  | sleepSecs (n : Nat)
  | registerCallbacks
  | scheduleAlertTask (title msg : String)
  | alert (title msg : String)
  | awaitOpenChannel (timeoutSecs : Nat)
  | guardDelay
  | scheduleToggleChat
  | scheduleStopAudioStreams
  | runTask (i : Nat)
  | logTaskError (i : Nat)
  | logError (msg : String)
  | spawnAbortFollowup
  deriving DecidableEq, Repr

/-- The slice of Application's mutable state that the embedded methods
read or write: device state, the keep_listening and aborted flags,
presence/activity booleans for the protocol, the two audio streams and
the wake word detector, the codec's playback queue contents, and the
registered state-change listeners (each represented by whether it raises
when invoked). -/
structure AppState where
  deviceState : DeviceState
  keepListening : Bool
  aborted : Bool
  hasProtocol : Bool
  channelOpen : Bool
  hasInput : Bool
  inputActive : Bool
  hasOutput : Bool
  outputActive : Bool
  hasWake : Bool
  wakeRunning : Bool
  wakePaused : Bool
  playbackQueue : List Nat
  listeners : List Bool
  deriving DecidableEq, Repr

/-- Application.set_device_state, lines 740-780: the per-target entry
side effects.  Entering IDLE stops the output stream if it is active
(keeping the handle open); CONNECTING only updates the display; entering
LISTENING starts the input stream if inactive; entering SPEAKING starts
the output stream if inactive, stops the input stream if active, and
pauses the wake word detector if it is running. -/
def entryEffects (s : AppState) (target : DeviceState) : AppState × List Action :=
  match target with
  | DeviceState.idle =>
      ({s with outputActive := if s.hasOutput && s.outputActive then false else s.outputActive},
       [Action.updateStatus "待命", Action.updateEmotion "😶"] ++
         (if s.hasOutput && s.outputActive then [Action.stopOutputStream] else []))
  | DeviceState.connecting =>
      (s, [Action.updateStatus "连接中..."])
  | DeviceState.listening =>
      ({s with inputActive := if s.hasInput && !s.inputActive then true else s.inputActive},
       [Action.updateStatus "聆听中...", Action.updateEmotion "🙂"] ++
         (if s.hasInput && !s.inputActive then [Action.startInputStream] else []))
  | DeviceState.speaking =>
      ({s with
          outputActive := if s.hasOutput && !s.outputActive then true else s.outputActive,
          inputActive := if s.hasInput && s.inputActive then false else s.inputActive,
          wakePaused := if s.hasWake && s.wakeRunning then true else s.wakePaused},
       [Action.updateStatus "说话中..."] ++
         (if s.hasOutput && !s.outputActive then [Action.startOutputStream] else []) ++
         (if s.hasInput && s.inputActive then [Action.stopInputStream] else []) ++
         (if s.hasWake && s.wakeRunning then [Action.pauseWake] else []))

/-- Application.set_device_state, lines 782-787: each registered
state-change callback is invoked in order; a raising callback is caught
and logged without stopping the others. -/
def notifyListeners (ls : List Bool) (st : DeviceState) : List Action :=
  ls.map (fun raises => if raises then Action.listenerError else Action.notifyListener st)

/-- Application.set_device_state, lines 725-787.  Returns immediately if
the target equals the current state.  On a genuine transition it first
waits for audio completion when leaving SPEAKING (the codec call
audio_codec.wait_for_audio_complete is modelled from the spec: it blocks
until the playback queue is empty), then assigns the new state, logs the
change, runs the entry side effects and notifies the listeners. -/
def set_device_state (s : AppState) (target : DeviceState) : AppState × List Action :=
  if s.deviceState = target then (s, [])
  else
    let old := s.deviceState
    let waitActs := if old = DeviceState.speaking then [Action.waitForAudioComplete] else []
    let s1 : AppState :=
      {s with
        playbackQueue := if old = DeviceState.speaking then [] else s.playbackQueue,
        deviceState := target}
    let r := entryEffects s1 target
    (r.1, waitActs ++ (Action.logStateChange old target :: (r.2 ++ notifyListeners r.1.listeners target)))

/-- Application._handle_input_audio, lines 269-279: returns without
doing anything unless the state is LISTENING; otherwise reads one frame
from the codec and, if a frame was produced, the protocol exists and the
audio channel is open, sends it. -/
def handle_input_audio (s : AppState) (readResult : Option Nat) : List Action :=
  if s.deviceState ≠ DeviceState.listening then []
  else
    Action.readAudio ::
      (match readResult with
       | some _ => if s.hasProtocol && s.channelOpen then [Action.sendAudio] else []
       | Option.none => [])

/-- Application._handle_output_audio, lines 281-286: returns without
writing unless the state is SPEAKING; otherwise plays queued audio. -/
def handle_output_audio (s : AppState) : List Action :=
  if s.deviceState ≠ DeviceState.speaking then []
  else [Action.playAudio]

/-- A field-preservation fact used throughout: entry effects never touch
the device state field. -/
theorem entryEffects_deviceState (s : AppState) (t : DeviceState) :
    (entryEffects s t).1.deviceState = s.deviceState := by
  cases t <;> rfl

/-- Entry effects never touch the playback queue. -/
theorem entryEffects_playbackQueue (s : AppState) (t : DeviceState) :
    (entryEffects s t).1.playbackQueue = s.playbackQueue := by
  cases t <;> rfl

/-- Entry effects never touch the keep_listening flag. -/
theorem entryEffects_keepListening (s : AppState) (t : DeviceState) :
    (entryEffects s t).1.keepListening = s.keepListening := by
  cases t <;> rfl

/-- Entry effects never touch the channelOpen flag. -/
theorem entryEffects_channelOpen (s : AppState) (t : DeviceState) :
    (entryEffects s t).1.channelOpen = s.channelOpen := by
  cases t <;> rfl

/-- Entry effects never touch the hasProtocol flag. -/
theorem entryEffects_hasProtocol (s : AppState) (t : DeviceState) :
    (entryEffects s t).1.hasProtocol = s.hasProtocol := by
  cases t <;> rfl

/-- Entry effects never touch the aborted flag. -/
theorem entryEffects_aborted (s : AppState) (t : DeviceState) :
    (entryEffects s t).1.aborted = s.aborted := by
  cases t <;> rfl

/-- After set_device_state the device state equals the requested target
(trivially so for the re-entrant no-op case). -/
theorem set_device_state_deviceState (s : AppState) (t : DeviceState) :
    ((set_device_state s t).1).deviceState = t := by
  by_cases h : s.deviceState = t
  · simp [set_device_state, h]
  · simp [set_device_state, h, entryEffects_deviceState]

/-- set_device_state preserves keep_listening. -/
theorem set_device_state_keepListening (s : AppState) (t : DeviceState) :
    ((set_device_state s t).1).keepListening = s.keepListening := by
  by_cases h : s.deviceState = t
  · simp [set_device_state, h]
  · simp [set_device_state, h, entryEffects_keepListening]

/-- set_device_state preserves channelOpen. -/
theorem set_device_state_channelOpen (s : AppState) (t : DeviceState) :
    ((set_device_state s t).1).channelOpen = s.channelOpen := by
  by_cases h : s.deviceState = t
  · simp [set_device_state, h]
  · simp [set_device_state, h, entryEffects_channelOpen]

/-- set_device_state preserves hasProtocol. -/
theorem set_device_state_hasProtocol (s : AppState) (t : DeviceState) :
    ((set_device_state s t).1).hasProtocol = s.hasProtocol := by
  by_cases h : s.deviceState = t
  · simp [set_device_state, h]
  · simp [set_device_state, h, entryEffects_hasProtocol]

/-- set_device_state preserves the aborted flag. -/
theorem set_device_state_aborted (s : AppState) (t : DeviceState) :
    ((set_device_state s t).1).aborted = s.aborted := by
  by_cases h : s.deviceState = t
  · simp [set_device_state, h]
  · simp [set_device_state, h, entryEffects_aborted]

/-- The playback queue after set_device_state: emptied when a genuine
transition leaves SPEAKING (wait_for_audio_complete drains it),
unchanged otherwise. -/
theorem set_device_state_playbackQueue (s : AppState) (t : DeviceState) :
    ((set_device_state s t).1).playbackQueue =
      if s.deviceState ≠ t ∧ s.deviceState = DeviceState.speaking then []
      else s.playbackQueue := by
  by_cases h : s.deviceState = t
  · simp [set_device_state, h]
  · by_cases hsp : s.deviceState = DeviceState.speaking
    · rw [hsp] at h
      simp [set_device_state, h, hsp, entryEffects_playbackQueue]
    · simp [set_device_state, h, hsp, entryEffects_playbackQueue]

/-- The set of action kinds that set_device_state can ever emit; in
particular it never resumes the wake word gate, never closes a stream
handle, never connects and never raises an alert. -/
def setStateAction : Action → Bool
  | Action.waitForAudioComplete => true
  | Action.logStateChange _ _ => true
  | Action.updateStatus _ => true
  | Action.updateEmotion _ => true
  | Action.stopOutputStream => true
  | Action.startOutputStream => true
  | Action.stopInputStream => true
  | Action.startInputStream => true
  | Action.pauseWake => true
  | Action.notifyListener _ => true
  | Action.listenerError => true
  | _ => false

/-- Every entry-effect action is a setStateAction. -/
theorem entryEffects_actions_ok (s : AppState) (t : DeviceState) :
    ∀ a ∈ (entryEffects s t).2, setStateAction a = true := by
  intro a ha
  cases t
  · by_cases hc : (s.hasOutput && s.outputActive) = true <;>
      simp only [entryEffects, hc, if_true, if_false] at ha <;>
      fin_cases ha <;> rfl
  · simp only [entryEffects] at ha
    fin_cases ha
    rfl
  · by_cases hc : (s.hasInput && !s.inputActive) = true <;>
      simp only [entryEffects, hc, if_true, if_false] at ha <;>
      fin_cases ha <;> rfl
  · by_cases h1 : (s.hasOutput && !s.outputActive) = true <;>
      by_cases h2 : (s.hasInput && s.inputActive) = true <;>
      by_cases h3 : (s.hasWake && s.wakeRunning) = true <;>
      simp only [entryEffects, h1, h2, h3, if_true, if_false] at ha <;>
      fin_cases ha <;> rfl

/-- Every listener-notification action is a setStateAction. -/
theorem notifyListeners_actions_ok (ls : List Bool) (st : DeviceState) :
    ∀ a ∈ notifyListeners ls st, setStateAction a = true := by
  intro a ha
  rcases List.mem_map.mp ha with ⟨b, _, hfb⟩
  cases b <;> simp only [Bool.false_eq_true, if_true, if_false] at hfb <;>
    subst hfb <;> rfl

/-- Every action emitted by set_device_state is a setStateAction. -/
theorem set_device_state_actions_ok (s : AppState) (t : DeviceState) :
    ∀ a ∈ (set_device_state s t).2, setStateAction a = true := by
  intro a ha
  by_cases h : s.deviceState = t
  · simp [set_device_state, h] at ha
  · simp only [set_device_state, if_neg h] at ha
    rcases List.mem_append.mp ha with ha | ha
    · split at ha
      · obtain rfl := List.mem_singleton.mp ha
        rfl
      · exact absurd ha (List.not_mem_nil a)
    · rcases List.mem_cons.mp ha with rfl | ha
      · rfl
      · rcases List.mem_append.mp ha with ha | ha
        · exact entryEffects_actions_ok _ _ a ha
        · exact notifyListeners_actions_ok _ _ a ha

/-- Application.abort_speaking (lines 976-994), followup thread body
start_listening_after_abort (lines 989-994): after the guard delay the
thread re-asserts IDLE and schedules toggle_chat_state, which re-enters
the listening flow. -/
def abort_followup_thread (s : AppState) : AppState × List Action :=
  let r := set_device_state s DeviceState.idle
  (r.1, Action.guardDelay :: r.2 ++ [Action.scheduleToggleChat])

/-- Application.abort_speaking, lines 976-994: sets the aborted flag,
sends the abort message to the server, transitions to IDLE (draining the
playback queue when leaving SPEAKING), and when the reason is
WAKE_WORD_DETECTED with keep_listening set it spawns the followup thread
that re-triggers the listening flow after a short guard delay. -/
def abort_speaking (s : AppState) (reason : AbortReason) : AppState × List Action :=
  let s1 : AppState := {s with aborted := true}
  let r := set_device_state s1 DeviceState.idle
  let spawn :=
    if reason = AbortReason.wakeWordDetected ∧ r.1.keepListening then
      [Action.spawnAbortFollowup]
    else []
  (r.1, Action.sendAbortSpeaking reason :: r.2 ++ spawn)

/-- Application._handle_tts_start, lines 401-409: clears the aborted
flag and the stale playback queue, then enters SPEAKING when the state
was IDLE or LISTENING. -/
def handle_tts_start (s : AppState) : AppState × List Action :=
  let s1 : AppState := {s with aborted := false, playbackQueue := []}
  if s1.deviceState = DeviceState.idle ∨ s1.deviceState = DeviceState.listening then
    let r := set_device_state s1 DeviceState.speaking
    (r.1, Action.clearAudioQueue :: r.2)
  else (s1, [Action.clearAudioQueue])

/-- Application._handle_tts_stop, lines 411-430 (the delayed worker body
runs only when the state is SPEAKING): waits for the playback queue to
drain, then either sends start-listening(AUTO_STOP) and enters LISTENING
when keep_listening is set, or enters IDLE.  The codec call
audio_codec.wait_for_audio_complete is modelled from the spec: it blocks
until the playback queue is empty. -/
def handle_tts_stop (s : AppState) : AppState × List Action :=
  if s.deviceState = DeviceState.speaking then
    let s1 : AppState := {s with playbackQueue := []}
    if s1.keepListening then
      let r := set_device_state s1 DeviceState.listening
      (r.1, Action.waitForAudioComplete :: Action.sendStartListening ListeningMode.autoStop :: r.2)
    else
      let r := set_device_state s1 DeviceState.idle
      (r.1, Action.waitForAudioComplete :: r.2)
  else (s, [])

/-- Application._on_network_error, lines 288-302: clears keep_listening,
forces IDLE, resumes the wake word detector, and — since the state is
now necessarily not CONNECTING — re-asserts IDLE and closes the stale
audio channel.  It never invokes _reconnect or _attempt_reconnect. -/
def on_network_error (s : AppState) : AppState × List Action :=
  let s1 : AppState := {s with keepListening := false}
  let r1 := set_device_state s1 DeviceState.idle
  let s2 : AppState := {r1.1 with wakePaused := false}
  if s2.deviceState ≠ DeviceState.connecting then
    let r2 := set_device_state s2 DeviceState.idle
    let a3 := if r2.1.hasProtocol then [Action.closeAudioChannel] else []
    (r2.1, r1.2 ++ Action.resumeWake :: r2.2 ++ a3)
  else (s2, r1.2 ++ [Action.resumeWake])

/-- Application._on_audio_channel_closed, lines 697-710: forces IDLE,
clears keep_listening, restarts or resumes the wake word detector as
needed, and schedules stopping the audio streams. -/
def on_audio_channel_closed (s : AppState) : AppState × List Action :=
  let r1 := set_device_state s DeviceState.idle
  let s1 : AppState := {r1.1 with keepListening := false}
  let step :=
    if s1.hasWake then
      if !s1.wakeRunning then ({s1 with wakeRunning := true}, [Action.startWake])
      else if s1.wakePaused then ({s1 with wakePaused := false}, [Action.resumeWake])
      else (s1, ([] : List Action))
    else (s1, ([] : List Action))
  (step.1, r1.2 ++ step.2 ++ [Action.scheduleStopAudioStreams])

/-- Application._reconnect retry loop, lines 335-346: at most the given
number of remaining attempts; each attempt calls protocol.connect()
(whose outcome is supplied by the oracle, indexed by attempt number) and
on failure sleeps 2 seconds before the next try. -/
def reconnectLoop (outcomes : Nat → Bool) : Nat → Nat → Bool × List Action
  | _retry, 0 => (false, [])
  | retry, Nat.succ remaining =>
    if outcomes retry then (true, [Action.connectAttempt retry])
    else
      let r := reconnectLoop outcomes (retry + 1) remaining
      (r.1, Action.connectAttempt retry :: Action.sleepSecs 2 :: r.2)

/-- Application._reconnect, lines 324-351: re-registers the protocol
callbacks, then makes up to 3 connect attempts (max_retries = 3) spaced
2 seconds apart.  On the first success it sets the state to IDLE and
returns true; on exhaustion it schedules a single alert task, sets the
state to IDLE and returns false. -/
def reconnect (s : AppState) (outcomes : Nat → Bool) : AppState × List Action × Bool :=
  let lr := reconnectLoop outcomes 0 3
  if lr.1 then
    let r := set_device_state s DeviceState.idle
    (r.1, (Action.registerCallbacks :: lr.2 ++ r.2, true))
  else
    let r := set_device_state s DeviceState.idle
    (r.1,
     (Action.registerCallbacks :: lr.2 ++
        Action.scheduleAlertTask "连接错误" "无法重新连接到服务器" :: r.2,
      false))

/-- The outcome of awaiting protocol.open_audio_channel() through
future.result(timeout=10.0): the future returned True, returned False,
or raised (exception or timeout). -/
inductive OpenOutcome where
  | success
  | failed
  | errored
  deriving DecidableEq, Repr

/-- Application._start_listening_impl, lines 848-892: bails out when the
protocol is missing; clears keep_listening and pauses the wake word
detector; from IDLE it enters CONNECTING and, if the channel is not yet
open, awaits open_audio_channel with a 10-second timeout — on failure or
exception it alerts and returns to IDLE, on success (and when the
channel was already open) it sends start-listening(MANUAL) and enters
LISTENING.  From SPEAKING with the aborted flag clear it aborts with
reason WAKE_WORD_DETECTED. -/
def start_listening_impl (s : AppState) (outcome : OpenOutcome) : AppState × List Action :=
  if !s.hasProtocol then (s, [Action.logError "协议未初始化"])
  else
    let s1 : AppState := {s with keepListening := false}
    let pre :=
      if s1.hasWake then (({s1 with wakePaused := true} : AppState), [Action.pauseWake])
      else (s1, ([] : List Action))
    let s2 := pre.1
    if s2.deviceState = DeviceState.idle then
      let r1 := set_device_state s2 DeviceState.connecting
      if !r1.1.channelOpen then
        match outcome with
        | OpenOutcome.success =>
          let s4 : AppState := {r1.1 with channelOpen := true}
          let r2 := set_device_state s4 DeviceState.listening
          (r2.1, pre.2 ++ r1.2 ++
            Action.awaitOpenChannel 10 :: Action.sendStartListening ListeningMode.manual :: r2.2)
        | OpenOutcome.failed =>
          let r2 := set_device_state r1.1 DeviceState.idle
          (r2.1, pre.2 ++ r1.2 ++
            Action.awaitOpenChannel 10 :: Action.alert "错误" "打开音频通道失败" :: r2.2)
        | OpenOutcome.errored =>
          let r2 := set_device_state r1.1 DeviceState.idle
          (r2.1, pre.2 ++ r1.2 ++
            Action.awaitOpenChannel 10 :: Action.alert "错误" "打开音频通道失败: 异常" :: r2.2)
      else
        let r2 := set_device_state r1.1 DeviceState.listening
        (r2.1, pre.2 ++ r1.2 ++ Action.sendStartListening ListeningMode.manual :: r2.2)
    else if s2.deviceState = DeviceState.speaking then
      if !s2.aborted then
        let r := abort_speaking s2 AbortReason.wakeWordDetected
        (r.1, pre.2 ++ r.2)
      else (s2, pre.2)
    else (s2, pre.2)

/-- A scheduled task as it sits in Application.main_tasks: an identifier,
whether the text "abort_speaking" occurs in str(task) (the textual match
used for de-duplication in Application.schedule), the effects it
performs when run, and whether it raises after them. -/
structure STask where
  tid : Nat
  reprHasAbort : Bool
  effects : List Action
  raisesAfter : Bool
  deriving DecidableEq, Repr

/-- Running one task inside the try/except of
Application._process_scheduled_tasks: its effects happen, and if it
raises, the exception is caught and logged. -/
def runOneTask (t : STask) : List Action :=
  t.effects ++ (if t.raisesAfter then [Action.logTaskError t.tid] else [])

/-- The drain loop of Application._process_scheduled_tasks, lines
252-256: each snapshotted task runs to completion in order, a raising
task is logged and the loop continues with the rest. -/
def drainTasks : List STask → List Action
  | [] => []
  | t :: rest => runOneTask t ++ drainTasks rest

/-- Application._process_scheduled_tasks, lines 246-256: atomically
snapshots the queue under the mutex and clears it, then runs the
snapshot through the drain loop. -/
def process_scheduled_tasks (q : List STask) : List STask × List Action :=
  ([], drainTasks q)

/-- Application.schedule, lines 258-267: a task whose textual
representation contains "abort_speaking" is dropped when such a task is
already pending; otherwise the task is appended to the queue. -/
def schedule (q : List STask) (t : STask) : List STask :=
  if t.reprHasAbort && q.any (fun u => u.reprHasAbort) then q
  else q ++ [t]

/-- Number of pending abort-speaking tasks in a queue. -/
def countAbort (q : List STask) : Nat :=
  (q.filter (fun u => u.reprHasAbort)).length

/-- Recognizer for connect attempts, used to count them in traces. -/
def isConnectAttempt : Action → Bool
  | Action.connectAttempt _ => true
  | _ => false

/-- Recognizer for scheduled alert tasks. -/
def isScheduleAlert : Action → Bool
  | Action.scheduleAlertTask _ _ => true
  | _ => false

/-- Recognizer for directly emitted alerts. -/
def isAlert : Action → Bool
  | Action.alert _ _ => true
  | _ => false

/-- A concrete snapshot in LISTENING used to instantiate theorems. -/
def sListening : AppState :=
  { deviceState := DeviceState.listening, keepListening := true, aborted := false,
    hasProtocol := true, channelOpen := true, hasInput := true, inputActive := true,
    hasOutput := true, outputActive := false, hasWake := true, wakeRunning := true,
    wakePaused := true, playbackQueue := [7], listeners := [false] }

/-- A concrete snapshot in SPEAKING with a nonempty playback queue. -/
def sSpeaking : AppState :=
  { sListening with
    deviceState := DeviceState.speaking, inputActive := false, outputActive := true }

/-- A concrete snapshot in IDLE with the channel closed. -/
def sIdle : AppState :=
  { sListening with
    deviceState := DeviceState.idle, inputActive := false, wakePaused := false,
    channelOpen := false, playbackQueue := [] }

/-- A concrete abort-speaking task (its textual representation contains
"abort_speaking"). -/
def tAbort : STask :=
  { tid := 1, reprHasAbort := true,
    effects := [Action.sendAbortSpeaking AbortReason.none], raisesAfter := false }

/-- A concrete task that raises after doing nothing. -/
def tFail : STask :=
  { tid := 2, reprHasAbort := false, effects := [], raisesAfter := true }

/-- A concrete well-behaved task. -/
def tPlain : STask :=
  { tid := 3, reprHasAbort := false, effects := [Action.playAudio], raisesAfter := false }

/-- Any listener-notification action is the notification itself or the
logged listener failure. -/
theorem mem_notifyListeners_cases {a : Action} {ls : List Bool} {st : DeviceState}
    (h : a ∈ notifyListeners ls st) :
    a = Action.listenerError ∨ a = Action.notifyListener st := by
  rcases List.mem_map.mp h with ⟨b, _, hb⟩
  cases b <;> simp at hb <;> subst hb <;> simp

/-- An action outside set_device_state's repertoire never appears in its
trace. -/
theorem not_mem_set_device_state {a : Action} (hcls : setStateAction a = false)
    (s : AppState) (t : DeviceState) : a ∉ (set_device_state s t).2 := by
  intro h
  have := set_device_state_actions_ok s t a h
  rw [hcls] at this
  exact Bool.false_ne_true this

/-- Membership of an entry-effect action (one that is neither the wait,
the log line, nor a listener notification) in set_device_state's trace
reduces to membership in the entry effects of a genuine transition. -/
theorem mem_set_device_state_iff {a : Action} (s : AppState) (t : DeviceState)
    (hwait : a ≠ Action.waitForAudioComplete)
    (hlog : ∀ o n, a ≠ Action.logStateChange o n)
    (hnl : a ≠ Action.listenerError)
    (hnn : ∀ st, a ≠ Action.notifyListener st) :
    a ∈ (set_device_state s t).2 ↔
      s.deviceState ≠ t ∧
        a ∈ (entryEffects
              {s with
                playbackQueue :=
                  if s.deviceState = DeviceState.speaking then [] else s.playbackQueue,
                deviceState := t} t).2 := by
  by_cases h : s.deviceState = t
  · simp [set_device_state, h]
  · simp only [set_device_state, if_neg h]
    constructor
    · intro hmem
      refine ⟨h, ?_⟩
      rcases List.mem_append.mp hmem with hm | hm
      · split at hm
        · exact absurd (List.mem_singleton.mp hm) hwait
        · exact absurd hm (List.not_mem_nil a)
      · rcases List.mem_cons.mp hm with hm | hm
        · exact absurd hm (hlog _ _)
        · rcases List.mem_append.mp hm with hm | hm
          · exact hm
          · rcases mem_notifyListeners_cases hm with hm | hm
            · exact absurd hm hnl
            · exact absurd hm (hnn _)
    · intro hmem
      exact List.mem_append.mpr (Or.inr (List.mem_cons.mpr
        (Or.inr (List.mem_append.mpr (Or.inl hmem.2)))))

/-- Exactly when entry effects stop the output stream: on entering IDLE
with the output stream present and active. -/
theorem stopOutput_mem_entryEffects (s : AppState) (t : DeviceState) :
    Action.stopOutputStream ∈ (entryEffects s t).2 ↔
      (t = DeviceState.idle ∧ (s.hasOutput && s.outputActive) = true) := by
  cases t
  · by_cases hc : (s.hasOutput && s.outputActive) = true <;> simp [entryEffects, hc]
  · simp [entryEffects]
  · by_cases hc : (s.hasInput && !s.inputActive) = true <;> simp [entryEffects, hc]
  · by_cases h1 : (s.hasOutput && !s.outputActive) = true <;>
      by_cases h2 : (s.hasInput && s.inputActive) = true <;>
      by_cases h3 : (s.hasWake && s.wakeRunning) = true <;>
      simp [entryEffects, h1, h2, h3]

/-- Exactly when entry effects pause the wake word gate: on entering
SPEAKING with the detector present and running. -/
theorem pauseWake_mem_entryEffects (s : AppState) (t : DeviceState) :
    Action.pauseWake ∈ (entryEffects s t).2 ↔
      (t = DeviceState.speaking ∧ (s.hasWake && s.wakeRunning) = true) := by
  cases t
  · by_cases hc : (s.hasOutput && s.outputActive) = true <;> simp [entryEffects, hc]
  · simp [entryEffects]
  · by_cases hc : (s.hasInput && !s.inputActive) = true <;> simp [entryEffects, hc]
  · by_cases h1 : (s.hasOutput && !s.outputActive) = true <;>
      by_cases h2 : (s.hasInput && s.inputActive) = true <;>
      by_cases h3 : (s.hasWake && s.wakeRunning) = true <;>
      simp [entryEffects, h1, h2, h3]

/-- C5: a set_device_state call whose target equals the current state
returns before any side effect — no hardware action, no listener
notification, no state log, no state change — and after any sequence of
set_device_state calls the device state equals the last requested
target. -/
theorem C5_setState_noop_and_last_target :
    (∀ s : AppState, set_device_state s s.deviceState = (s, [])) ∧
    (∀ (s : AppState) (ts : List DeviceState) (t : DeviceState),
      ts.getLast? = some t →
      (ts.foldl (fun st u => (set_device_state st u).1) s).deviceState = t) := by
  constructor
  · intro s
    simp [set_device_state]
  · intro s ts
    induction ts generalizing s with
    | nil => intro t ht; simp at ht
    | cons a rest ih =>
      intro t ht
      cases rest with
      | nil =>
        simp only [List.getLast?_singleton, Option.some.injEq] at ht
        subst ht
        simp [List.foldl, set_device_state_deviceState]
      | cons b rest2 =>
        rw [List.getLast?_cons_cons] at ht
        exact ih _ t ht

/-- C5 witness: a concrete two-step sequence ends in the last requested
target. -/
theorem C5_witness :
    ([DeviceState.connecting, DeviceState.idle].foldl
      (fun st u => (set_device_state st u).1) sListening).deviceState = DeviceState.idle :=
  C5_setState_noop_and_last_target.2 sListening
    [DeviceState.connecting, DeviceState.idle] DeviceState.idle (by decide)

/-- C4: the input handler reads a frame iff the state is LISTENING and
returns without reading otherwise; a frame send can only happen in
LISTENING (and requires the protocol with an open channel); the output
handler attempts a playback write iff the state is SPEAKING and returns
without writing otherwise. -/
theorem C4_capture_iff_listening_playback_iff_speaking :
    (∀ (s : AppState) (r : Option Nat),
      (Action.readAudio ∈ handle_input_audio s r ↔
        s.deviceState = DeviceState.listening) ∧
      (s.deviceState ≠ DeviceState.listening → handle_input_audio s r = []) ∧
      (Action.sendAudio ∈ handle_input_audio s r →
        s.deviceState = DeviceState.listening ∧ (s.hasProtocol && s.channelOpen) = true)) ∧
    (∀ s : AppState,
      (Action.playAudio ∈ handle_output_audio s ↔
        s.deviceState = DeviceState.speaking) ∧
      (s.deviceState ≠ DeviceState.speaking → handle_output_audio s = [])) := by
  constructor
  · intro s r
    by_cases h : s.deviceState = DeviceState.listening
    · refine ⟨by simp [handle_input_audio, h], fun hn => absurd h hn, ?_⟩
      intro hsend
      refine ⟨h, ?_⟩
      simp only [handle_input_audio, h, ne_eq, not_true_eq_false, if_false] at hsend
      rcases List.mem_cons.mp hsend with hsend | hsend
      · exact absurd hsend.symm (by simp)
      · cases r with
        | none => simp at hsend
        | some d =>
          by_cases hc : (s.hasProtocol && s.channelOpen) = true
          · exact hc
          · simp [hc] at hsend
    · refine ⟨?_, fun _ => by simp [handle_input_audio, h], ?_⟩
      · simp [handle_input_audio, h]
      · intro hsend
        simp [handle_input_audio, h] at hsend
  · intro s
    by_cases h : s.deviceState = DeviceState.speaking
    · exact ⟨by simp [handle_output_audio, h], fun hn => absurd h hn⟩
    · exact ⟨by simp [handle_output_audio, h], fun _ => by simp [handle_output_audio, h]⟩

/-- C4 witness: in SPEAKING the input handler does nothing, and in
LISTENING the read happens. -/
theorem C4_witness :
    handle_input_audio sSpeaking (some 5) = [] ∧
    handle_output_audio sListening = [] :=
  ⟨(C4_capture_iff_listening_playback_iff_speaking.1 sSpeaking (some 5)).2.1 (by decide),
   (C4_capture_iff_listening_playback_iff_speaking.2 sListening).2 (by decide)⟩

/-- C3 counterexample: the genuine LISTENING→IDLE transition emits no
resumeWake action, refuting the claim that every setState entry into
IDLE resumes the WakeWordGate (the resume happens only on the error and
channel-closed paths). -/
theorem C3_counterexample :
    sListening.deviceState ≠ DeviceState.idle ∧
    Action.resumeWake ∉ (set_device_state sListening DeviceState.idle).2 := by
  decide

/-- C3 amended: on entering IDLE the playback stream is stopped exactly
when it is present and active, its handle is never closed, but the
WakeWordGate is not resumed — no set_device_state transition ever emits
a resume; the gate is paused by set_device_state exactly on a genuine
transition into SPEAKING with the detector running (entries into
CONNECTING or LISTENING pause nothing — their callers pause the gate
separately). -/
theorem C3_amended_idle_entry_and_gate (s : AppState) (t : DeviceState) :
    Action.resumeWake ∉ (set_device_state s t).2 ∧
    Action.closeOutputStream ∉ (set_device_state s t).2 ∧
    (s.deviceState ≠ DeviceState.idle →
      (Action.stopOutputStream ∈ (set_device_state s DeviceState.idle).2 ↔
        (s.hasOutput && s.outputActive) = true)) ∧
    (Action.pauseWake ∈ (set_device_state s t).2 ↔
      (s.deviceState ≠ t ∧ t = DeviceState.speaking ∧ (s.hasWake && s.wakeRunning) = true)) := by
  refine ⟨not_mem_set_device_state (by rfl) s t,
          not_mem_set_device_state (by rfl) s t, ?_, ?_⟩
  · intro hne
    rw [mem_set_device_state_iff s DeviceState.idle
      (by simp) (by simp) (by simp) (by simp)]
    rw [stopOutput_mem_entryEffects]
    simp [hne]
  · rw [mem_set_device_state_iff s t (by simp) (by simp) (by simp) (by simp)]
    rw [pauseWake_mem_entryEffects]

/-- C3 amended witness: the concrete LISTENING→IDLE transition stops
the active output stream; with the output stream inactive nothing is
stopped. -/
theorem C3_amended_witness :
    Action.stopOutputStream ∈
      (set_device_state {sListening with outputActive := true} DeviceState.idle).2 :=
  ((C3_amended_idle_entry_and_gate {sListening with outputActive := true}
      DeviceState.idle).2.2.1 (by decide)).mpr (by decide)

/-- C6: a genuine transition leaving SPEAKING blocks on
wait_for_audio_complete first — the trace starts with that action,
before the state log, the entry side effects and the listener
notifications — and the new state is applied with the playback queue
drained. -/
theorem C6_leaving_speaking_waits (s : AppState) (t : DeviceState)
    (hs : s.deviceState = DeviceState.speaking) (ht : t ≠ DeviceState.speaking) :
    (set_device_state s t).2.head? = some Action.waitForAudioComplete ∧
    (set_device_state s t).1.playbackQueue = [] ∧
    (set_device_state s t).1.deviceState = t := by
  have hne2 : ¬ (DeviceState.speaking = t) := fun hh => ht hh.symm
  refine ⟨?_, ?_, set_device_state_deviceState s t⟩
  · simp [set_device_state, hs, hne2]
  · rw [set_device_state_playbackQueue]
    simp [hs, hne2]

/-- C6 witness: leaving SPEAKING for IDLE with a nonempty queue drains
it and the trace opens with the wait. -/
theorem C6_witness :
    (set_device_state sSpeaking DeviceState.idle).2.head? =
      some Action.waitForAudioComplete ∧
    (set_device_state sSpeaking DeviceState.idle).1.playbackQueue = [] ∧
    (set_device_state sSpeaking DeviceState.idle).1.deviceState = DeviceState.idle :=
  C6_leaving_speaking_waits sSpeaking DeviceState.idle (by decide) (by decide)

/-- C2: aborting while SPEAKING sends the abort message first, ends in
IDLE with the playback queue purged and the aborted flag set, and spawns
the followup thread exactly when the reason is WAKE_WORD_DETECTED with
keep_listening set; that thread re-triggers the listening flow
(schedules toggle_chat_state) after the guard delay. -/
theorem C2_abort_speaking (s : AppState) (reason : AbortReason)
    (hs : s.deviceState = DeviceState.speaking) :
    (abort_speaking s reason).2.head? = some (Action.sendAbortSpeaking reason) ∧
    (abort_speaking s reason).1.deviceState = DeviceState.idle ∧
    (abort_speaking s reason).1.playbackQueue = [] ∧
    (abort_speaking s reason).1.aborted = true ∧
    (Action.spawnAbortFollowup ∈ (abort_speaking s reason).2 ↔
      (reason = AbortReason.wakeWordDetected ∧ s.keepListening = true)) ∧
    (abort_followup_thread (abort_speaking s reason).1).2 =
      [Action.guardDelay, Action.scheduleToggleChat] := by
  have hkl := set_device_state_keepListening ({s with aborted := true} : AppState)
    DeviceState.idle
  have hspawniff : Action.spawnAbortFollowup ∈ (abort_speaking s reason).2 ↔
      (reason = AbortReason.wakeWordDetected ∧
        ((set_device_state {s with aborted := true} DeviceState.idle).1).keepListening = true) := by
    simp only [abort_speaking]
    by_cases hcond : reason = AbortReason.wakeWordDetected ∧
        ((set_device_state {s with aborted := true} DeviceState.idle).1).keepListening = true
    · simp [hcond]
    · rw [if_neg hcond]
      rw [List.append_nil]
      constructor
      · intro hm
        rcases List.mem_cons.mp hm with hm | hm
        · exact absurd hm (by simp)
        · exact absurd hm (not_mem_set_device_state (by rfl) _ _)
      · intro hm
        exact absurd hm hcond
  refine ⟨?_, ?_, ?_, ?_, ?_, ?_⟩
  · simp [abort_speaking]
  · simp [abort_speaking, set_device_state_deviceState]
  · simp only [abort_speaking]
    rw [set_device_state_playbackQueue]
    simp [hs]
  · simp only [abort_speaking]
    rw [set_device_state_aborted]
  · rw [hspawniff, hkl]
  · have hidle : ((abort_speaking s reason).1).deviceState = DeviceState.idle := by
      simp [abort_speaking, set_device_state_deviceState]
    simp [abort_followup_thread, set_device_state, hidle]

/-- C2 witness: the concrete SPEAKING snapshot with keep_listening set,
aborted with reason WAKE_WORD_DETECTED, ends IDLE with an empty queue
and spawns the followup. -/
theorem C2_witness :
    (abort_speaking sSpeaking AbortReason.wakeWordDetected).1.deviceState =
      DeviceState.idle ∧
    (abort_speaking sSpeaking AbortReason.wakeWordDetected).1.playbackQueue = [] ∧
    Action.spawnAbortFollowup ∈ (abort_speaking sSpeaking AbortReason.wakeWordDetected).2 := by
  have h := C2_abort_speaking sSpeaking AbortReason.wakeWordDetected (by decide)
  exact ⟨h.2.1, h.2.2.1, h.2.2.2.2.1.mpr (by decide)⟩

/-- C10: both the network-error callback and the audio-channel-closed
callback reset keep_listening to False, and a completed speaking turn
with keep_listening False ends in IDLE without sending a new
start-listening message. -/
theorem C10_callbacks_reset_keep_listening :
    (∀ s : AppState, (on_network_error s).1.keepListening = false) ∧
    (∀ s : AppState, (on_audio_channel_closed s).1.keepListening = false) ∧
    (∀ s : AppState, s.deviceState = DeviceState.speaking → s.keepListening = false →
      (handle_tts_stop s).1.deviceState = DeviceState.idle ∧
      ∀ m, Action.sendStartListening m ∉ (handle_tts_stop s).2) := by
  refine ⟨?_, ?_, ?_⟩
  · intro s
    simp only [on_network_error]
    split
    · rw [set_device_state_keepListening]
      rw [show ({(set_device_state {s with keepListening := false} DeviceState.idle).1
            with wakePaused := false} : AppState).keepListening =
          ((set_device_state {s with keepListening := false} DeviceState.idle).1).keepListening
          from rfl]
      rw [set_device_state_keepListening]
    · rw [show ({(set_device_state {s with keepListening := false} DeviceState.idle).1
            with wakePaused := false} : AppState).keepListening =
          ((set_device_state {s with keepListening := false} DeviceState.idle).1).keepListening
          from rfl]
      rw [set_device_state_keepListening]
  · intro s
    simp only [on_audio_channel_closed]
    split
    · split
      · rfl
      · split <;> rfl
    · rfl
  · intro s hs hkl
    constructor
    · simp only [handle_tts_stop, hs, if_true, hkl,
        show ({s with playbackQueue := ([] : List Nat)} : AppState).keepListening = s.keepListening
          from rfl]
      simp [set_device_state_deviceState]
    · intro m hmem
      simp only [handle_tts_stop, hs, if_true, hkl,
        show ({s with playbackQueue := ([] : List Nat)} : AppState).keepListening = s.keepListening
          from rfl] at hmem
      simp only [Bool.false_eq_true, if_false, List.mem_cons] at hmem
      rcases hmem with hmem | hmem
      · exact absurd hmem (by simp)
      · exact absurd hmem (not_mem_set_device_state (by rfl) _ _)

/-- C10 witness: at the concrete SPEAKING snapshot with keep_listening
cleared, the completed turn ends IDLE with no start-listening sent. -/
theorem C10_witness :
    (handle_tts_stop {sSpeaking with keepListening := false}).1.deviceState =
      DeviceState.idle ∧
    Action.sendStartListening ListeningMode.autoStop ∉
      (handle_tts_stop {sSpeaking with keepListening := false}).2 := by
  have h := C10_callbacks_reset_keep_listening.2.2
    {sSpeaking with keepListening := false} (by decide) (by decide)
  exact ⟨h.1, h.2 ListeningMode.autoStop⟩

/-- A filter whose predicate rejects everything set_device_state can
emit returns nothing from its trace. -/
theorem set_device_state_filter (p : Action → Bool)
    (hrej : ∀ a, setStateAction a = true → p a = false) (s : AppState) (t : DeviceState) :
    (set_device_state s t).2.filter p = [] := by
  rw [List.filter_eq_nil_iff]
  intro a ha hpa
  rw [hrej a (set_device_state_actions_ok s t a ha)] at hpa
  exact Bool.false_ne_true hpa

/-- Draining a concatenation drains the parts in order. -/
theorem drainTasks_append (l1 l2 : List STask) :
    drainTasks (l1 ++ l2) = drainTasks l1 ++ drainTasks l2 := by
  induction l1 with
  | nil => simp [drainTasks]
  | cons t rest ih => simp [drainTasks, ih]

/-- The drain trace is the concatenation of each task's own run. -/
theorem drainTasks_eq_flatMap (q : List STask) :
    drainTasks q = q.flatMap runOneTask := by
  induction q with
  | nil => rfl
  | cons t rest ih => simp [drainTasks, ih]

/-- C8: a drain cycle empties the whole snapshotted queue and executes
the tasks strictly in FIFO enqueue order — the resulting trace is the
in-order concatenation of each task's run — and a raising task only adds
a logged error, after which the remaining tasks still run. -/
theorem C8_drain_fifo_isolating :
    (∀ q : List STask,
      (process_scheduled_tasks q).1 = [] ∧
      (process_scheduled_tasks q).2 = q.flatMap runOneTask) ∧
    (∀ (pre post : List STask) (t : STask), t.raisesAfter = true →
      (process_scheduled_tasks (pre ++ t :: post)).2 =
        drainTasks pre ++
          (t.effects ++ (Action.logTaskError t.tid :: drainTasks post))) := by
  constructor
  · intro q
    exact ⟨rfl, drainTasks_eq_flatMap q⟩
  · intro pre post t ht
    show drainTasks (pre ++ t :: post) = _
    rw [drainTasks_append]
    simp [drainTasks, runOneTask, ht]

/-- C8 witness: a concrete queue with a raising middle task drains
completely, in order, with the failure logged between its
neighbours. -/
theorem C8_witness :
    (process_scheduled_tasks ([tPlain] ++ tFail :: [tAbort])).2 =
      drainTasks [tPlain] ++
        (tFail.effects ++ (Action.logTaskError tFail.tid :: drainTasks [tAbort])) :=
  C8_drain_fifo_isolating.2 [tPlain] [tAbort] tFail (by decide)

/-- One schedule call keeps the abort count at most one. -/
theorem countAbort_schedule (q : List STask) (t : STask) (h : countAbort q ≤ 1) :
    countAbort (schedule q t) ≤ 1 := by
  by_cases ht : t.reprHasAbort = true
  · by_cases hq : q.any (fun u => u.reprHasAbort) = true
    · simpa [schedule, ht, hq] using h
    · have h0 : q.filter (fun u => u.reprHasAbort) = [] := by
        rw [List.filter_eq_nil_iff]
        intro a ha hpa
        exact hq (List.any_eq_true.mpr ⟨a, ha, hpa⟩)
      simp [schedule, ht, hq, countAbort, List.filter_append, h0]
  · have ht2 : t.reprHasAbort = false := by
      cases hb : t.reprHasAbort
      · rfl
      · exact absurd hb ht
    simp only [schedule, ht2, Bool.false_and, Bool.false_eq_true, if_false]
    simpa [countAbort, List.filter_append, ht2] using h

/-- C9: after any sequence of schedule calls starting from an empty
queue the pending queue holds at most one abort-speaking task, because
scheduling an abort task while one is pending leaves the queue
unchanged. -/
theorem C9_at_most_one_abort :
    (∀ ts : List STask, countAbort (ts.foldl schedule []) ≤ 1) ∧
    (∀ (q : List STask) (t : STask), t.reprHasAbort = true →
      q.any (fun u => u.reprHasAbort) = true → schedule q t = q) := by
  constructor
  · intro ts
    have gen : ∀ q, countAbort q ≤ 1 → countAbort (ts.foldl schedule q) ≤ 1 := by
      induction ts with
      | nil => exact fun q h => h
      | cons t rest ih => exact fun q h => ih _ (countAbort_schedule q t h)
    exact gen [] (by decide)
  · intro q t h1 h2
    simp [schedule, h1, h2]

/-- C9 witness: scheduling a second abort task onto a queue already
holding one adds nothing. -/
theorem C9_witness : schedule [tAbort] tAbort = [tAbort] :=
  C9_at_most_one_abort.2 [tAbort] tAbort (by decide) (by decide)

/-- C7: a manual listen start from IDLE with the channel closed awaits
the open result with a 10-second timeout; on success it sends
start-listening(MANUAL), raises no alert and ends LISTENING; on a failed
or raising open it raises exactly one alert and ends IDLE. -/
theorem C7_manual_listen_bounded_failclosed (s : AppState) (outcome : OpenOutcome)
    (hp : s.hasProtocol = true) (hidle : s.deviceState = DeviceState.idle)
    (hch : s.channelOpen = false) :
    Action.awaitOpenChannel 10 ∈ (start_listening_impl s outcome).2 ∧
    (outcome = OpenOutcome.success →
      (start_listening_impl s outcome).1.deviceState = DeviceState.listening ∧
      Action.sendStartListening ListeningMode.manual ∈ (start_listening_impl s outcome).2 ∧
      (start_listening_impl s outcome).2.filter isAlert = []) ∧
    (outcome ≠ OpenOutcome.success →
      (start_listening_impl s outcome).1.deviceState = DeviceState.idle ∧
      ((start_listening_impl s outcome).2.filter isAlert).length = 1) := by
  have hfa : ∀ (u : AppState) (t : DeviceState),
      (set_device_state u t).2.filter isAlert = [] :=
    set_device_state_filter isAlert (by intro a; cases a <;> simp [setStateAction, isAlert])
  cases outcome <;>
    by_cases hw : s.hasWake = true <;>
    refine ⟨?_, ?_, ?_⟩ <;>
    simp [start_listening_impl, hp, hw, hidle, hch,
      set_device_state_channelOpen, set_device_state_deviceState,
      List.filter_append, hfa, isAlert]

/-- C7 witness: at the concrete idle snapshot a failed open raises one
alert and returns to IDLE. -/
theorem C7_witness :
    (start_listening_impl sIdle OpenOutcome.failed).1.deviceState = DeviceState.idle ∧
    ((start_listening_impl sIdle OpenOutcome.failed).2.filter isAlert).length = 1 :=
  (C7_manual_listen_bounded_failclosed sIdle OpenOutcome.failed rfl rfl rfl).2.2 (by decide)

/-- C1 counterexample: firing the network-error callback at a concrete
SPEAKING snapshot produces a trace with no connect attempt and no
scheduled alert — the callback performs no reconnection at all
(_reconnect and _attempt_reconnect are never invoked by it), refuting
the claimed 3-attempt reconnection after a network error. -/
theorem C1_counterexample :
    (on_network_error sSpeaking).2.filter isConnectAttempt = [] ∧
    (on_network_error sSpeaking).2.filter isScheduleAlert = [] ∧
    (on_network_error sSpeaking).1.deviceState = DeviceState.idle := by
  decide

/-- C1 amended: the _reconnect coroutine itself, when invoked, makes
exactly 3 connect attempts spaced 2 seconds apart when all fail, then
schedules exactly one alert and leaves the device IDLE without further
retries; a first-attempt success makes exactly one attempt, no alert,
and restores IDLE.  The network-error callback, however, never invokes
it: its trace contains no connect attempt and no scheduled alert. -/
theorem C1_amended_reconnect_policy :
    (∀ (s : AppState) (outcomes : Nat → Bool), (∀ i, outcomes i = false) →
      (reconnect s outcomes).2.2 = false ∧
      (reconnect s outcomes).1.deviceState = DeviceState.idle ∧
      (reconnect s outcomes).2.1.filter isConnectAttempt =
        [Action.connectAttempt 0, Action.connectAttempt 1, Action.connectAttempt 2] ∧
      (reconnect s outcomes).2.1.filter isScheduleAlert =
        [Action.scheduleAlertTask "连接错误" "无法重新连接到服务器"] ∧
      (reconnect s outcomes).2.1 =
        Action.registerCallbacks :: Action.connectAttempt 0 :: Action.sleepSecs 2 ::
          Action.connectAttempt 1 :: Action.sleepSecs 2 ::
          Action.connectAttempt 2 :: Action.sleepSecs 2 ::
          Action.scheduleAlertTask "连接错误" "无法重新连接到服务器" ::
          (set_device_state s DeviceState.idle).2) ∧
    (∀ (s : AppState) (outcomes : Nat → Bool), outcomes 0 = true →
      (reconnect s outcomes).2.2 = true ∧
      (reconnect s outcomes).1.deviceState = DeviceState.idle ∧
      (reconnect s outcomes).2.1.filter isConnectAttempt = [Action.connectAttempt 0] ∧
      (reconnect s outcomes).2.1.filter isScheduleAlert = []) ∧
    (∀ s : AppState,
      (on_network_error s).2.filter isConnectAttempt = [] ∧
      (on_network_error s).2.filter isScheduleAlert = []) := by
  have hfc : ∀ (u : AppState) (t : DeviceState),
      (set_device_state u t).2.filter isConnectAttempt = [] :=
    set_device_state_filter isConnectAttempt
      (by intro a; cases a <;> simp [setStateAction, isConnectAttempt])
  have hfs : ∀ (u : AppState) (t : DeviceState),
      (set_device_state u t).2.filter isScheduleAlert = [] :=
    set_device_state_filter isScheduleAlert
      (by intro a; cases a <;> simp [setStateAction, isScheduleAlert])
  refine ⟨?_, ?_, ?_⟩
  · intro s outcomes h
    refine ⟨?_, ?_, ?_, ?_, ?_⟩ <;>
      simp [reconnect, reconnectLoop, h 0, h 1, h 2, set_device_state_deviceState,
        List.filter_append, hfc, hfs, isConnectAttempt, isScheduleAlert]
  · intro s outcomes h
    refine ⟨?_, ?_, ?_, ?_⟩ <;>
      simp [reconnect, reconnectLoop, h, set_device_state_deviceState,
        List.filter_append, hfc, hfs, isConnectAttempt, isScheduleAlert]
  · intro s
    constructor <;>
      by_cases hpro : s.hasProtocol = true <;>
      simp [on_network_error, set_device_state_deviceState, set_device_state_hasProtocol,
        hpro, List.filter_append, hfc, hfs, isConnectAttempt, isScheduleAlert]

/-- C1 amended witness: with every attempt failing, the concrete run
makes exactly the 3 attempts, schedules exactly one alert and reports
failure. -/
theorem C1_amended_witness :
    (reconnect sIdle (fun _ => false)).2.2 = false ∧
    (reconnect sIdle (fun _ => false)).2.1.filter isConnectAttempt =
      [Action.connectAttempt 0, Action.connectAttempt 1, Action.connectAttempt 2] ∧
    (reconnect sIdle (fun _ => false)).2.1.filter isScheduleAlert =
      [Action.scheduleAlertTask "连接错误" "无法重新连接到服务器"] := by
  have h := C1_amended_reconnect_policy.1 sIdle (fun _ => false) (fun _ => rfl)
  exact ⟨h.1, h.2.2.1, h.2.2.2.1⟩

end Xiaozhi
